import Mathlib

/-!
Shallow embedding of the tiered template loader (`src/index.js`).

The module keeps two in-memory caches (steps, workflows), one shared
last-fetch timestamp, one shared in-flight flag, and a mutable
configuration object.  A load call checks cache freshness, then the
in-flight flag, then fetches from GitHub (with an on-disk mirror
fallback and a bundled-defaults fallback) or from the bundled local
files, depending on the configured source.

I/O is modelled by explicit oracles: a `FetchEnv` records what the
remote returns for this call (directory listing, per-file results) and
which local writes fail; the on-disk mirror directory is a value of
type `MirrorDir` threaded through the functions.  Wall-clock time is a
`Nat` of milliseconds passed in explicitly (JS `Date.now()`).
-/

/-- A template item: an opaque JSON record with a mandatory `id` field.
The rest of the record is abstracted as an opaque payload. -/
structure Item where
  id : String
  payload : String
deriving DecidableEq, Repr

/-- The two collection types managed by the loader. -/
inductive CType where
  | steps
  | workflows
deriving DecidableEq, Repr

/-- One entry of a GitHub directory listing: `{name, type, ...}`. -/
structure RemoteFile where
  name : String
  type : String
deriving DecidableEq, Repr

/-- One file of a local directory, as seen by a reader: its name and
the result of reading-and-JSON-parsing it (`none` = read or parse
throws). -/
structure DirFile where
  name : String
  parse : Option Item
deriving DecidableEq, Repr

/-- Embedding of the JS string test `name.endsWith(".json")`: the
characters of `".json"` are a suffix of the characters of `s`. -/
def endsWithJson (s : String) : Bool :=
  ".json".data.isSuffixOf s.data

theorem endsWithJson_append (s : String) : endsWithJson (s ++ ".json") = true := by
  unfold endsWithJson
  rw [String.data_append, List.isSuffixOf_iff_suffix]
  exact List.suffix_append _ _

/-- The mirror directory for one collection type: `none` when the
directory does not exist, otherwise the list of its files. -/
abbrev MirrorDir := Option (List DirFile)

/-- Overwrite (or create) the file called `n` in a directory, with a
content that parses back to `it` (the mirror stores
`JSON.stringify(item)`, which round-trips). -/
def writeMirrorFile : List DirFile → String → Item → List DirFile
  | [], n, it => [⟨n, some it⟩]
  | f :: fs, n, it =>
    if f.name = n then ⟨n, some it⟩ :: fs
    else f :: writeMirrorFile fs n it

/-- The write loop of `saveToCacheDir`: each item is written to
`<id>.json`; a failing `writeFile` throws to the function's single
catch, so the remaining items are not written. -/
def saveItems (wf : String → Bool) : List DirFile → List Item → List DirFile
  | d, [] => d
  | d, i :: is =>
    if wf (i.id ++ ".json") then d
    else saveItems wf (writeMirrorFile d (i.id ++ ".json") i) is

/-- Embedding of `saveToCacheDir(type, items)`: `mkdir` failure aborts
before any write; otherwise the directory exists and items are written
until the first failing write. -/
def saveToCacheDir (mkdirFails : Bool) (wf : String → Bool)
    (mirror : MirrorDir) (items : List Item) : MirrorDir :=
  if mkdirFails then mirror
  else some (saveItems wf (mirror.getD []) items)

/-- The read loop of `loadFromCacheDir`: files not ending in `.json`
are skipped before being read; a failing read or parse throws to the
function's single catch (result `none`). -/
def readDirFiles : List DirFile → Option (List Item)
  | [] => some []
  | f :: fs =>
    if endsWithJson f.name = true then
      match f.parse with
      | none => none
      | some it => (readDirFiles fs).map (fun r => it :: r)
    else readDirFiles fs

/-- Every `.json` file of the directory that parses successfully, in
order, skipping the ones that do not (what the spec says the read
returns). -/
def parsableJson : List DirFile → List Item
  | [] => []
  | f :: fs =>
    if endsWithJson f.name = true then
      match f.parse with
      | some it => it :: parsableJson fs
      | none => parsableJson fs
    else parsableJson fs

/-- Embedding of `loadFromCacheDir(type)`: `null` when the directory
does not exist, when any read/parse throws, or when no items result. -/
def loadFromCacheDir : MirrorDir → Option (List Item)
  | none => none
  | some fs =>
    match readDirFiles fs with
    | none => none
    | some items => if items.length > 0 then some items else none

/-- The I/O oracle for one fetch: what the remote directory listing
returns (`none` = the listing call throws), what each per-file
fetch-and-parse returns (`none` = it throws), which mirror writes
fail, and what the bundled local reader (`loadFromLocal`) yields. -/
structure FetchEnv where
  listing : Option (List RemoteFile)
  fileFetch : String → Option Item
  mkdirFails : Bool
  writeFails : String → Bool
  bundled : List Item

/-- The per-file loop of `loadFromGitHub`: entries of type `file`
whose name ends in `.json` are fetched; an individual failure is
logged and skipped. -/
def fetchListedItems (ff : String → Option Item) : List RemoteFile → List Item
  | [] => []
  | f :: fs =>
    if f.type = "file" ∧ endsWithJson f.name = true then
      match ff f.name with
      | some it => it :: fetchListedItems ff fs
      | none => fetchListedItems ff fs
    else fetchListedItems ff fs

/-- Embedding of `loadFromGitHub(type)`: on a successful listing,
fetch the items and write them through to the mirror; on a listing
failure, fall back to the mirror read, then to the bundled defaults.
Returns the items together with the resulting mirror directory. -/
def loadFromGitHub (env : FetchEnv) (mirror : MirrorDir) : List Item × MirrorDir :=
  match env.listing with
  | some files =>
    let items := fetchListedItems env.fileFetch files
    (items, saveToCacheDir env.mkdirFails env.writeFails mirror items)
  | none =>
    match loadFromCacheDir mirror with
    | some cached => (cached, mirror)
    | none => (env.bundled, mirror)

/-- The module configuration object. -/
structure Config where
  repo : String
  branch : String
  token : Option String
  repoPath : String
  cacheTTL : Nat
  source : String
deriving DecidableEq, Repr

/-- The module-level mutable state: the two caches, the shared
last-fetch timestamp, the shared in-flight flag, the configuration. -/
structure LoaderState where
  stepsCache : Option (List Item)
  workflowsCache : Option (List Item)
  lastFetchTime : Nat
  isFetching : Bool
  config : Config
deriving DecidableEq, Repr

/-- The cache variable that belongs to a collection type. -/
def getCache (st : LoaderState) : CType → Option (List Item)
  | .steps => st.stepsCache
  | .workflows => st.workflowsCache

/-- Assign a collection type's cache variable. -/
def setCache (st : LoaderState) (t : CType) (items : List Item) : LoaderState :=
  match t with
  | .steps => { st with stepsCache := some items }
  | .workflows => { st with workflowsCache := some items }

/-- Embedding of `isCacheStale()`: `Date.now() - lastFetchTime >
config.cacheTTL`, on the single shared timestamp. -/
def isCacheStale (now : Nat) (st : LoaderState) : Bool :=
  decide (now - st.lastFetchTime > st.config.cacheTTL)

/-- What the head of `loadWithCache` decides before any I/O. -/
inductive BeginResult where
  | immediate : List Item → BeginResult
  | fetching : BeginResult
deriving DecidableEq, Repr

/-- The two guard checks at the top of `loadWithCache`: return the
cache when present and fresh; return `cache || []` when the in-flight
flag is set; otherwise set the flag and proceed to fetch. -/
def loadBegin (now : Nat) (t : CType) (st : LoaderState) : BeginResult × LoaderState :=
  if (getCache st t).isSome = true ∧ isCacheStale now st = false then
    (.immediate ((getCache st t).getD []), st)
  else if st.isFetching then (.immediate ((getCache st t).getD []), st)
  else (.fetching, { st with isFetching := true })

/-- The tail of a fetching `loadWithCache` call plus the caller's
cache assignment: on success (`some items`) the timestamp is set and
the cache replaced; on an exception the assignment does not happen;
the `finally` clears the in-flight flag on both paths. -/
def loadEnd (now : Nat) (t : CType) (outcome : Option (List Item))
    (st : LoaderState) : LoaderState :=
  match outcome with
  | some items =>
      setCache { st with lastFetchTime := now, isFetching := false } t items
  | none => { st with isFetching := false }

/-- Result of one complete load call: the returned items, the new
module state, the new mirror directory, and whether the call reached
the fetch branch (i.e. performed source I/O). -/
structure GHResult where
  items : List Item
  state : LoaderState
  mirror : MirrorDir
  fetched : Bool
deriving Repr

/-- Embedding of one complete `loadSteps`/`loadWorkflows` call
(`loadWithCache` plus the caller's cache assignment): guards first;
if fetching, the source is selected from `config.source` and the
result installed as the new cache entry. -/
def loadWithCache (now : Nat) (t : CType) (env : FetchEnv)
    (st : LoaderState) (mirror : MirrorDir) : GHResult :=
  match loadBegin now t st with
  | (.immediate items, st1) => ⟨items, setCache st1 t items, mirror, false⟩
  | (.fetching, st1) =>
    let r :=
      if st.config.source = "github" then loadFromGitHub env mirror
      else (env.bundled, mirror)
    ⟨r.1, loadEnd now t (some r.1) st1, r.2, true⟩

/-- The argument of `updateConfig`: each field optionally provided;
`token` may be provided as an explicit null (`some none`). -/
structure NewConfig where
  repo : Option String
  branch : Option String
  token : Option (Option String)
  repoPath : Option String
  cacheTTL : Option Nat
  source : Option String
deriving Repr

/-- One `if (newConfig.x) config.x = newConfig.x` line for a string
field: applied only when provided and truthy (non-empty). -/
def applyS (cur : String) (v : Option String) : String :=
  match v with
  | some s => if s = "" then cur else s
  | none => cur

/-- The token line: `null` and the empty string are falsy, so a
cleared credential is not applied. -/
def applyOS (cur : Option String) (v : Option (Option String)) : Option String :=
  match v with
  | some (some s) => if s = "" then cur else some s
  | some none => cur
  | none => cur

/-- The TTL line: `0` is falsy, so a zero TTL is not applied;
otherwise seconds are converted to milliseconds. -/
def applyTTL (cur : Nat) (v : Option Nat) : Nat :=
  match v with
  | some n => if n = 0 then cur else n * 1000
  | none => cur

/-- Embedding of `updateConfig(newConfig)`: truthy provided fields
overwrite the configuration, then both caches and the timestamp are
cleared; the in-flight flag is untouched. -/
def updateConfig (nc : NewConfig) (st : LoaderState) : LoaderState :=
  { st with
    config :=
      { repo := applyS st.config.repo nc.repo
        branch := applyS st.config.branch nc.branch
        token := applyOS st.config.token nc.token
        repoPath := applyS st.config.repoPath nc.repoPath
        cacheTTL := applyTTL st.config.cacheTTL nc.cacheTTL
        source := applyS st.config.source nc.source }
    stepsCache := none
    workflowsCache := none
    lastFetchTime := 0 }

/-! Concrete fixtures used by witnesses and counterexamples. -/

/-- Default configuration of the module (TTL 300 s in milliseconds). -/
def cfg0 : Config :=
  { repo := "CEREMA/airjobs", branch := "main", token := none,
    repoPath := "src/repository", cacheTTL := 300000, source := "github" }

def item0 : Item := ⟨"s1", "p0"⟩

def itemA : Item := ⟨"a", "pa"⟩

def itemB : Item := ⟨"b", "pb"⟩

def itemW : Item := ⟨"w1", "pw"⟩

def itemD1 : Item := ⟨"d", "v1"⟩

def itemD2 : Item := ⟨"d", "v2"⟩

/-- An environment where the listing succeeds with no entries. -/
def env0 : FetchEnv :=
  { listing := some [], fileFetch := fun _ => none,
    mkdirFails := false, writeFails := fun _ => false, bundled := [] }

/-- An environment where the remote listing call fails. -/
def envFail : FetchEnv :=
  { listing := none, fileFetch := fun _ => none,
    mkdirFails := false, writeFails := fun _ => false, bundled := [itemB] }

example : endsWithJson ("a.json") = true := by decide

example : endsWithJson ("a.txt") = false := by decide

example : (loadWithCache 200 CType.steps env0
    ⟨none, none, 0, false, cfg0⟩ none).fetched = true := by decide

/-! Helper lemmas about the state machine. -/

theorem getCache_setCache_self (st : LoaderState) (t : CType) (items : List Item) :
    getCache (setCache st t items) t = some items := by
  cases t <;> rfl

theorem getCache_setCache_other (st : LoaderState) (t u : CType) (items : List Item)
    (h : t ≠ u) : getCache (setCache st t items) u = getCache st u := by
  cases t <;> cases u <;> first | rfl | exact absurd rfl h

theorem setCache_self (st : LoaderState) (t : CType) (c : List Item)
    (h : getCache st t = some c) : setCache st t c = st := by
  cases st
  cases t <;> simp only [getCache] at h <;> simp [setCache, h]

theorem setCache_lastFetchTime (st : LoaderState) (t : CType) (items : List Item) :
    (setCache st t items).lastFetchTime = st.lastFetchTime := by
  cases t <;> rfl

theorem setCache_isFetching (st : LoaderState) (t : CType) (items : List Item) :
    (setCache st t items).isFetching = st.isFetching := by
  cases t <;> rfl

theorem setCache_config (st : LoaderState) (t : CType) (items : List Item) :
    (setCache st t items).config = st.config := by
  cases t <;> rfl

theorem loadEnd_isFetching (now : Nat) (t : CType) (o : Option (List Item))
    (st : LoaderState) : (loadEnd now t o st).isFetching = false := by
  cases o with
  | none => rfl
  | some items =>
    show (setCache _ t items).isFetching = false
    rw [setCache_isFetching]

theorem loadBegin_cases (now : Nat) (t : CType) (st : LoaderState) :
    (loadBegin now t st = (.immediate ((getCache st t).getD []), st) ∧
      ((getCache st t).isSome = true ∧ isCacheStale now st = false ∨
        st.isFetching = true)) ∨
    (loadBegin now t st = (.fetching, { st with isFetching := true }) ∧
      st.isFetching = false ∧
      ¬((getCache st t).isSome = true ∧ isCacheStale now st = false)) := by
  unfold loadBegin
  by_cases h1 : (getCache st t).isSome = true ∧ isCacheStale now st = false
  · left
    rw [if_pos h1]
    exact ⟨rfl, .inl h1⟩
  · rw [if_neg h1]
    by_cases h2 : st.isFetching = true
    · left
      rw [if_pos h2]
      exact ⟨rfl, .inr h2⟩
    · right
      rw [if_neg h2]
      exact ⟨rfl, by simpa using h2, h1⟩

theorem loadBegin_fresh (now : Nat) (t : CType) (st : LoaderState) (c : List Item)
    (hc : getCache st t = some c) (hfresh : isCacheStale now st = false) :
    loadBegin now t st = (.immediate c, st) := by
  unfold loadBegin
  rw [if_pos ⟨by rw [hc]; rfl, hfresh⟩, hc]
  rfl

theorem loadBegin_busy (now : Nat) (t : CType) (st : LoaderState)
    (hb : st.isFetching = true) :
    loadBegin now t st = (.immediate ((getCache st t).getD []), st) := by
  unfold loadBegin
  by_cases h1 : (getCache st t).isSome = true ∧ isCacheStale now st = false
  · rw [if_pos h1]
  · rw [if_neg h1, if_pos hb]

theorem loadWithCache_of_begin_immediate (now : Nat) (t : CType) (env : FetchEnv)
    (st : LoaderState) (m : MirrorDir) (items : List Item)
    (h : loadBegin now t st = (.immediate items, st)) :
    loadWithCache now t env st m = ⟨items, setCache st t items, m, false⟩ := by
  unfold loadWithCache
  rw [h]

theorem loadWithCache_of_begin_fetching (now : Nat) (t : CType) (env : FetchEnv)
    (st : LoaderState) (m : MirrorDir)
    (h : loadBegin now t st = (.fetching, { st with isFetching := true })) :
    loadWithCache now t env st m =
      ⟨(if st.config.source = "github" then loadFromGitHub env m
          else (env.bundled, m)).1,
        loadEnd now t
          (some (if st.config.source = "github" then loadFromGitHub env m
            else (env.bundled, m)).1)
          { st with isFetching := true },
        (if st.config.source = "github" then loadFromGitHub env m
          else (env.bundled, m)).2,
        true⟩ := by
  unfold loadWithCache
  rw [h]

theorem loadWithCache_hit (now : Nat) (t : CType) (env : FetchEnv) (st : LoaderState)
    (m : MirrorDir) (c : List Item) (hc : getCache st t = some c)
    (hfresh : now - st.lastFetchTime ≤ st.config.cacheTTL) :
    loadWithCache now t env st m = ⟨c, st, m, false⟩ := by
  have hstale : isCacheStale now st = false := by
    simp only [isCacheStale, decide_eq_false_iff_not, not_lt]
    omega
  rw [loadWithCache_of_begin_immediate now t env st m c
    (loadBegin_fresh now t st c hc hstale), setCache_self st t c hc]

theorem loadWithCache_fetched_state (now : Nat) (t : CType) (env : FetchEnv)
    (st : LoaderState) (m : MirrorDir)
    (h : (loadWithCache now t env st m).fetched = true) :
    getCache (loadWithCache now t env st m).state t =
      some (loadWithCache now t env st m).items ∧
    (loadWithCache now t env st m).state.lastFetchTime = now ∧
    (loadWithCache now t env st m).state.isFetching = false ∧
    (loadWithCache now t env st m).state.config = st.config := by
  rcases loadBegin_cases now t st with ⟨hb, _⟩ | ⟨hb, _, _⟩
  · rw [loadWithCache_of_begin_immediate now t env st m _ hb] at h
    simp at h
  · rw [loadWithCache_of_begin_fetching now t env st m hb]
    simp only [loadEnd]
    refine ⟨getCache_setCache_self _ _ _, ?_, ?_, ?_⟩
    · rw [setCache_lastFetchTime]
    · rw [setCache_isFetching]
    · rw [setCache_config]

theorem loadWithCache_fetched_other (now : Nat) (t u : CType) (env : FetchEnv)
    (st : LoaderState) (m : MirrorDir)
    (h : (loadWithCache now t env st m).fetched = true) (hne : t ≠ u) :
    getCache (loadWithCache now t env st m).state u = getCache st u := by
  rcases loadBegin_cases now t st with ⟨hb, _⟩ | ⟨hb, _, _⟩
  · rw [loadWithCache_of_begin_immediate now t env st m _ hb] at h
    simp at h
  · rw [loadWithCache_of_begin_fetching now t env st m hb]
    simp only [loadEnd]
    rw [getCache_setCache_other _ _ _ _ hne]
    cases u <;> rfl

theorem loadFromGitHub_listing_failed (env : FetchEnv) (m : MirrorDir)
    (hfail : env.listing = none) :
    loadFromGitHub env m = ((loadFromCacheDir m).getD env.bundled, m) := by
  unfold loadFromGitHub
  rw [hfail]
  cases loadFromCacheDir m <;> rfl

theorem loadWithCache_miss_fetches (now : Nat) (t : CType) (env : FetchEnv)
    (st : LoaderState) (m : MirrorDir) (hc : getCache st t = none)
    (hb : st.isFetching = false) :
    (loadWithCache now t env st m).fetched = true := by
  rcases loadBegin_cases now t st with ⟨hb2, hcase⟩ | ⟨hb2, _, _⟩
  · rcases hcase with ⟨hsome, _⟩ | hbusy
    · rw [hc] at hsome
      simp at hsome
    · rw [hb] at hbusy
      simp at hbusy
  · rw [loadWithCache_of_begin_fetching now t env st m hb2]

/-- C1: if a cache entry for the requested type exists and `now` minus the
last-fetch timestamp is at most the configured TTL, the load returns the
cached sequence unchanged, with no state change and no I/O (`fetched =
false`); consequently, of two loads of the same type whose call times are
within one TTL of each other, with nothing in between, at most one reaches
the fetch branch — so at most one remote directory listing is issued. -/
theorem c1_ttl_cache_hit (st : LoaderState) (t : CType) (now1 now2 : Nat)
    (env1 env2 : FetchEnv) (m : MirrorDir)
    (hwin : now2 - now1 ≤ st.config.cacheTTL) :
    (∀ c, getCache st t = some c → now1 - st.lastFetchTime ≤ st.config.cacheTTL →
      loadWithCache now1 t env1 st m = ⟨c, st, m, false⟩) ∧
    ¬((loadWithCache now1 t env1 st m).fetched = true ∧
      (loadWithCache now2 t env2 (loadWithCache now1 t env1 st m).state
        (loadWithCache now1 t env1 st m).mirror).fetched = true) := by
  constructor
  · intro c hc hfresh
    exact loadWithCache_hit now1 t env1 st m c hc hfresh
  · rintro ⟨hf1, hf2⟩
    obtain ⟨hc1, hl1, _, hcfg1⟩ := loadWithCache_fetched_state now1 t env1 st m hf1
    rw [loadWithCache_hit now2 t env2 (loadWithCache now1 t env1 st m).state
      (loadWithCache now1 t env1 st m).mirror _ hc1
      (by rw [hl1, hcfg1]; exact hwin)] at hf2
    simp at hf2

/-- A state with a fresh steps cache used as the C1 witness input. -/
def stHit : LoaderState := ⟨some [item0], none, 8, false, cfg0⟩

/-- Witness for C1: at a concrete fresh state, the load returns the cache
with no I/O. -/
theorem c1_ttl_cache_hit_witness :
    loadWithCache 10 CType.steps env0 stHit none = ⟨[item0], stHit, none, false⟩ :=
  (c1_ttl_cache_hit stHit CType.steps 10 20 env0 env0 none (by decide)).1
    [item0] rfl (by decide)

/-- A short-TTL configuration for the shared-timestamp counterexample. -/
def cfgShort : Config := { cfg0 with cacheTTL := 100 }

/-- No steps cache, a workflows cache fetched at time 0, TTL 100 ms. -/
def stC3 : LoaderState := ⟨none, some [itemW], 0, false, cfgShort⟩

/-- Counterexample to C3 as stated: at time 200 the workflows entry is stale;
after a steps load at time 200 (which fetches and updates the single shared
timestamp), the staleness judgement of the untouched workflows entry flips
to fresh, and a workflows load at the same time now returns the old cached
items without fetching. -/
theorem c3_per_type_timestamp_counterexample :
    isCacheStale 200 stC3 = true ∧
    (loadWithCache 200 CType.steps env0 stC3 none).fetched = true ∧
    getCache (loadWithCache 200 CType.steps env0 stC3 none).state CType.workflows =
      some [itemW] ∧
    isCacheStale 200 (loadWithCache 200 CType.steps env0 stC3 none).state = false ∧
    (loadWithCache 200 CType.workflows env0
      (loadWithCache 200 CType.steps env0 stC3 none).state none).fetched = false := by
  decide

/-- C3 (amended): both collection types share one last-fetch timestamp: a
load of T that fetches sets the shared timestamp to its own call time, so
from then on the staleness judgement of the other type U is decided against
T's fetch time as well, even though U's cached items are untouched. -/
theorem c3_shared_timestamp (st : LoaderState) (t u : CType) (now now2 : Nat)
    (env : FetchEnv) (m : MirrorDir)
    (hf : (loadWithCache now t env st m).fetched = true) (hne : t ≠ u) :
    (loadWithCache now t env st m).state.lastFetchTime = now ∧
    isCacheStale now2 (loadWithCache now t env st m).state =
      decide (now2 - now > st.config.cacheTTL) ∧
    getCache (loadWithCache now t env st m).state u = getCache st u := by
  obtain ⟨_, hl, _, hcfg⟩ := loadWithCache_fetched_state now t env st m hf
  refine ⟨hl, ?_, loadWithCache_fetched_other now t u env st m hf hne⟩
  simp only [isCacheStale]
  rw [hl, hcfg]

/-- Witness for C3 (amended) at the concrete counterexample state. -/
theorem c3_shared_timestamp_witness :
    (loadWithCache 200 CType.steps env0 stC3 none).state.lastFetchTime = 200 ∧
    isCacheStale 200 (loadWithCache 200 CType.steps env0 stC3 none).state =
      decide ((200 : Nat) - 200 > stC3.config.cacheTTL) ∧
    getCache (loadWithCache 200 CType.steps env0 stC3 none).state CType.workflows =
      getCache stC3 CType.workflows :=
  c3_shared_timestamp stC3 CType.steps CType.workflows 200 200 env0 none
    (by decide) (by decide)

/-- C4: a load call arriving while the in-flight flag is set does not block
and performs no I/O: it returns the existing cached sequence for its type if
present, else the empty sequence, leaves the mirror untouched and the flag
set; and the flag is cleared on every exit path of a fetching load,
successful (`some items`) or exceptional (`none`), by the `finally`. -/
theorem c4_inflight_no_io (now : Nat) (t : CType) (env : FetchEnv)
    (st : LoaderState) (m : MirrorDir) (hb : st.isFetching = true) :
    (loadWithCache now t env st m).items = (getCache st t).getD [] ∧
    (loadWithCache now t env st m).fetched = false ∧
    (loadWithCache now t env st m).mirror = m ∧
    (loadWithCache now t env st m).state.isFetching = true ∧
    (∀ now2 u o st2, (loadEnd now2 u o st2).isFetching = false) := by
  rw [loadWithCache_of_begin_immediate now t env st m _ (loadBegin_busy now t st hb)]
  exact ⟨rfl, rfl, rfl, by rw [setCache_isFetching]; exact hb,
    fun now2 u o st2 => loadEnd_isFetching now2 u o st2⟩

/-- A state whose in-flight flag is set and whose caches are empty. -/
def stBusy : LoaderState := ⟨none, none, 0, true, cfg0⟩

/-- Witness for C4: with the flag set and no cache, the call immediately
returns the empty sequence without fetching. -/
theorem c4_inflight_no_io_witness :
    (loadWithCache 7 CType.steps env0 stBusy none).items = [] ∧
    (loadWithCache 7 CType.steps env0 stBusy none).fetched = false :=
  ⟨(c4_inflight_no_io 7 CType.steps env0 stBusy none rfl).1,
    (c4_inflight_no_io 7 CType.steps env0 stBusy none rfl).2.1⟩

/-- C8: a load that reaches the fetch branch in remote mode while the remote
directory listing fails is served from the mirror fallback (or, if the
mirror read is absent, from the bundled defaults), writes nothing to the
mirror, and still sets the shared fetch timestamp to its own call time — so
every later load of the same type within one TTL of that failed attempt
returns the fallback content from cache without reaching the fetch branch
again. -/
theorem c8_failure_updates_timestamp (st : LoaderState) (t : CType) (now : Nat)
    (env : FetchEnv) (m : MirrorDir)
    (hsrc : st.config.source = "github") (hfail : env.listing = none)
    (hf : (loadWithCache now t env st m).fetched = true) :
    (loadWithCache now t env st m).state.lastFetchTime = now ∧
    (loadWithCache now t env st m).items = (loadFromCacheDir m).getD env.bundled ∧
    (loadWithCache now t env st m).mirror = m ∧
    ∀ now2 env2 m2, now2 - now ≤ st.config.cacheTTL →
      (loadWithCache now2 t env2 (loadWithCache now t env st m).state m2).fetched
        = false ∧
      (loadWithCache now2 t env2 (loadWithCache now t env st m).state m2).items =
        (loadWithCache now t env st m).items := by
  obtain ⟨hc1, hl1, _, hcfg1⟩ := loadWithCache_fetched_state now t env st m hf
  refine ⟨hl1, ?_, ?_, ?_⟩
  · rcases loadBegin_cases now t st with ⟨hb2, _⟩ | ⟨hb2, _, _⟩
    · rw [loadWithCache_of_begin_immediate now t env st m _ hb2] at hf
      simp at hf
    · rw [loadWithCache_of_begin_fetching now t env st m hb2]
      rw [if_pos hsrc, loadFromGitHub_listing_failed env m hfail]
  · rcases loadBegin_cases now t st with ⟨hb2, _⟩ | ⟨hb2, _, _⟩
    · rw [loadWithCache_of_begin_immediate now t env st m _ hb2] at hf
      simp at hf
    · rw [loadWithCache_of_begin_fetching now t env st m hb2]
      rw [if_pos hsrc, loadFromGitHub_listing_failed env m hfail]
  · intro now2 env2 m2 hwin
    rw [loadWithCache_hit now2 t env2 (loadWithCache now t env st m).state m2 _
      hc1 (by rw [hl1, hcfg1]; exact hwin)]
    exact ⟨rfl, rfl⟩

/-- A completely empty state (no caches, timestamp 0, default config). -/
def stEmpty : LoaderState := ⟨none, none, 0, false, cfg0⟩

/-- Witness for C8: a stale empty state, a failed listing and an absent
mirror are served from the bundled defaults, and the timestamp is set. -/
theorem c8_failure_updates_timestamp_witness :
    (loadWithCache 400000 CType.steps envFail stEmpty none).state.lastFetchTime
      = 400000 ∧
    (loadWithCache 400000 CType.steps envFail stEmpty none).items = [itemB] := by
  obtain ⟨h1, h2, _, _⟩ := c8_failure_updates_timestamp stEmpty CType.steps 400000
    envFail none rfl rfl (by decide)
  exact ⟨h1, h2⟩

/-- A zero-TTL configuration. -/
def cfgZero : Config := { cfg0 with cacheTTL := 0 }

/-- A populated steps cache last fetched at time 5 under a zero TTL. -/
def stZero : LoaderState := ⟨some [item0], none, 5, false, cfgZero⟩

/-- Counterexample to C9 as stated: with TTL zero and a populated cache, a
load at the very same wall-clock instant as the last fetch does not refetch:
the staleness check `now - lastFetchTime > 0` is strict, so the cached
sequence is served. -/
theorem c9_ttl_zero_counterexample :
    stZero.config.cacheTTL = 0 ∧
    (loadWithCache 5 CType.steps env0 stZero none).fetched = false ∧
    (loadWithCache 5 CType.steps env0 stZero none).items = [item0] := by
  decide

/-- C9 (amended): with a configured TTL of zero, the in-flight flag clear
and a populated cache entry, a load refetches exactly when wall-clock time
has advanced strictly past the last fetch time; a call at the very same
instant returns the cache without refetching. -/
theorem c9_ttl_zero_refetch (st : LoaderState) (t : CType) (now : Nat)
    (env : FetchEnv) (m : MirrorDir) (c : List Item)
    (httl : st.config.cacheTTL = 0) (hb : st.isFetching = false)
    (hc : getCache st t = some c) :
    (loadWithCache now t env st m).fetched = decide (st.lastFetchTime < now) := by
  by_cases hlt : st.lastFetchTime < now
  · have hstale : isCacheStale now st = true := by
      simp only [isCacheStale, httl, decide_eq_true_eq]
      omega
    rcases loadBegin_cases now t st with ⟨hb2, hcase⟩ | ⟨hb2, _, _⟩
    · rcases hcase with ⟨_, hfresh⟩ | hbusy
      · rw [hstale] at hfresh
        simp at hfresh
      · rw [hb] at hbusy
        simp at hbusy
    · rw [loadWithCache_of_begin_fetching now t env st m hb2]
      exact (decide_eq_true hlt).symm
  · rw [loadWithCache_hit now t env st m c hc (by omega)]
    exact (decide_eq_false hlt).symm

/-- Witness for C9 (amended): one millisecond later the same state does
refetch. -/
theorem c9_ttl_zero_refetch_witness :
    (loadWithCache 6 CType.steps env0 stZero none).fetched =
      decide ((5 : Nat) < 6) :=
  c9_ttl_zero_refetch stZero CType.steps 6 env0 none [item0] rfl rfl rfl

theorem loadFromCacheDir_ne_nil (m : MirrorDir) (items : List Item)
    (h : loadFromCacheDir m = some items) : items ≠ [] := by
  cases m with
  | none => simp [loadFromCacheDir] at h
  | some fs =>
    cases hr : readDirFiles fs with
    | none => simp [loadFromCacheDir, hr] at h
    | some l =>
      simp only [loadFromCacheDir, hr] at h
      by_cases hl : l.length > 0
      · rw [if_pos hl] at h
        injection h with h2
        subst h2
        exact List.length_pos.mp hl
      · rw [if_neg hl] at h
        simp at h

/-- C2: when the remote directory listing fails, the mirror is not written
at all — in particular never from bundled defaults or from the fallback
read — and if the mirror read yields items (necessarily at least one), the
load returns exactly those items. -/
theorem c2_no_mirror_write_on_failure (env : FetchEnv) (m : MirrorDir)
    (hfail : env.listing = none) :
    (loadFromGitHub env m).2 = m ∧
    ∀ items, loadFromCacheDir m = some items →
      (loadFromGitHub env m).1 = items ∧ items ≠ [] := by
  rw [loadFromGitHub_listing_failed env m hfail]
  refine ⟨rfl, fun items hm => ⟨?_, loadFromCacheDir_ne_nil m items hm⟩⟩
  rw [hm]
  rfl

/-- A mirror directory holding one good item for the C2 witness. -/
def mirrorB : MirrorDir := some [⟨"b.json", some itemB⟩]

/-- Witness for C2: a failed listing over a one-item mirror returns exactly
the mirror's item and leaves the mirror untouched. -/
theorem c2_no_mirror_write_on_failure_witness :
    (loadFromGitHub envFail mirrorB).2 = mirrorB ∧
    (loadFromGitHub envFail mirrorB).1 = [itemB] := by
  obtain ⟨h1, h2⟩ := c2_no_mirror_write_on_failure envFail mirrorB rfl
  exact ⟨h1, (h2 [itemB] (by decide)).1⟩

/-- A write-failure oracle that fails exactly on `a.json`. -/
def wfA : String → Bool := fun n => decide (n = "a.json")

/-- Counterexample to C5 as stated: with a write failure on the first item
only, the claim predicts the second item is still written, but the code
writes nothing — the single try/catch aborts the whole batch. -/
theorem c5_batch_write_counterexample :
    saveItems wfA [] [itemA, itemB] = [] ∧
    ¬(saveItems wfA [] [itemA, itemB] =
      ([itemA, itemB].filter (fun i => !wfA (i.id ++ ".json"))).foldl
        (fun d2 i => writeMirrorFile d2 (i.id ++ ".json") i) []) := by
  decide

/-- C5 (amended): a per-item mirror write failure is logged once and aborts
the remainder of the batch: exactly the longest failure-free prefix of the
items is written, in order; the failing item and every item after it are
skipped.  A directory-creation failure writes nothing at all. -/
theorem c5_write_prefix (wf : String → Bool) (d : List DirFile)
    (items : List Item) :
    saveItems wf d items =
      (items.takeWhile (fun i => !wf (i.id ++ ".json"))).foldl
        (fun d2 i => writeMirrorFile d2 (i.id ++ ".json") i) d ∧
    ∀ m, saveToCacheDir true wf m items = m := by
  constructor
  · induction items generalizing d with
    | nil => rfl
    | cons i is ih =>
      by_cases hw : wf (i.id ++ ".json") = true
      · rw [saveItems, if_pos hw, List.takeWhile_cons, if_neg (by simp [hw])]
        rfl
      · have hw2 : wf (i.id ++ ".json") = false := by simpa using hw
        rw [saveItems, if_neg (by simp [hw2]), List.takeWhile_cons,
          if_pos (by simp [hw2]), List.foldl_cons]
        exact ih _
  · intro m
    rfl

theorem readDirFiles_all_ok (fs : List DirFile)
    (h : ∀ f ∈ fs, endsWithJson f.name = true → f.parse ≠ none) :
    readDirFiles fs = some (parsableJson fs) := by
  induction fs with
  | nil => rfl
  | cons f fs ih =>
    have hrest : ∀ g ∈ fs, endsWithJson g.name = true → g.parse ≠ none :=
      fun g hg => h g (by simp [hg])
    by_cases hj : endsWithJson f.name = true
    · cases hp : f.parse with
      | none => exact absurd hp (h f (by simp) hj)
      | some it =>
        simp only [readDirFiles, parsableJson, if_pos hj, hp, ih hrest]
        rfl
    · simp only [readDirFiles, parsableJson, if_neg hj]
      exact ih hrest

theorem readDirFiles_bad (fs : List DirFile)
    (h : ∃ f ∈ fs, endsWithJson f.name = true ∧ f.parse = none) :
    readDirFiles fs = none := by
  induction fs with
  | nil => simp at h
  | cons f fs ih =>
    rcases h with ⟨g, hg, hj, hp⟩
    rcases List.mem_cons.mp hg with rfl | hmem
    · simp only [readDirFiles, if_pos hj, hp]
    · by_cases hjf : endsWithJson f.name = true
      · cases hpf : f.parse with
        | none => simp only [readDirFiles, if_pos hjf, hpf]
        | some it =>
          simp only [readDirFiles, if_pos hjf, hpf, ih ⟨g, hmem, hj, hp⟩]
          rfl
      · simp only [readDirFiles, if_neg hjf]
        exact ih ⟨g, hmem, hj, hp⟩

/-- A mirror directory with one parsable and one unparsable `.json` file. -/
def badDir : List DirFile := [⟨"a.json", some itemA⟩, ⟨"bad.json", none⟩]

/-- Counterexample to C6 as stated: the directory yields one parsable item,
yet the read returns absent — a single malformed file fails the whole read
instead of being skipped. -/
theorem c6_mirror_read_counterexample :
    parsableJson badDir = [itemA] ∧
    loadFromCacheDir (some badDir) = none := by
  decide

/-- C6 (amended): the mirror read returns absent exactly when the directory
does not exist, some `.json` file fails to read or parse, or no `.json`
items result; when every `.json` file parses, it returns them all, in
order.  A malformed file is not skipped: it makes the whole read absent. -/
theorem c6_mirror_read (fs : List DirFile) :
    loadFromCacheDir none = none ∧
    ((∀ f ∈ fs, endsWithJson f.name = true → f.parse ≠ none) →
      loadFromCacheDir (some fs) =
        if parsableJson fs = [] then none else some (parsableJson fs)) ∧
    ((∃ f ∈ fs, endsWithJson f.name = true ∧ f.parse = none) →
      loadFromCacheDir (some fs) = none) := by
  refine ⟨rfl, ?_, ?_⟩
  · intro h
    cases hp : parsableJson fs with
    | nil => simp [loadFromCacheDir, readDirFiles_all_ok fs h, hp]
    | cons a l => simp [loadFromCacheDir, readDirFiles_all_ok fs h, hp]
  · intro h
    simp [loadFromCacheDir, readDirFiles_bad fs h]

/-- Witness for C6 (amended): a directory whose single `.json` file parses
is returned as a one-item read. -/
theorem c6_mirror_read_witness :
    loadFromCacheDir (some [⟨"a.json", some itemA⟩]) =
      if parsableJson [⟨"a.json", some itemA⟩] = [] then none
      else some (parsableJson [⟨"a.json", some itemA⟩]) :=
  (c6_mirror_read [⟨"a.json", some itemA⟩]).2.1 (by decide)

/-- A reconfiguration that provides only a zero TTL. -/
def ncZero : NewConfig := ⟨none, none, none, none, some 0, none⟩

/-- Counterexample to C7 as stated: a provided TTL of zero seconds is falsy,
so `updateConfig` ignores it and the old TTL survives. -/
theorem c7_update_config_counterexample :
    ncZero.cacheTTL = some 0 ∧
    (updateConfig ncZero stHit).config.cacheTTL = 300000 := by
  decide

/-- C7 (amended): `updateConfig` applies a provided field only when it is
truthy: a provided zero TTL and a cleared credential (null or empty string)
are ignored and the old values kept; a non-empty provided string is
applied, and a non-zero TTL is applied converted from seconds to
milliseconds; fields not provided are left untouched; both caches and the
fetch timestamp are always cleared, so a subsequent load with the in-flight
flag clear re-fetches under the new configuration. -/
theorem c7_update_config (nc : NewConfig) (st : LoaderState) :
    (updateConfig nc st).stepsCache = none ∧
    (updateConfig nc st).workflowsCache = none ∧
    (updateConfig nc st).lastFetchTime = 0 ∧
    (updateConfig nc st).isFetching = st.isFetching ∧
    (nc.repo = none → (updateConfig nc st).config.repo = st.config.repo) ∧
    (∀ s, nc.repo = some s → s ≠ "" → (updateConfig nc st).config.repo = s) ∧
    (nc.cacheTTL = some 0 →
      (updateConfig nc st).config.cacheTTL = st.config.cacheTTL) ∧
    (∀ n, nc.cacheTTL = some n → n ≠ 0 →
      (updateConfig nc st).config.cacheTTL = n * 1000) ∧
    (nc.token = some none → (updateConfig nc st).config.token = st.config.token) ∧
    (nc.token = some (some "") →
      (updateConfig nc st).config.token = st.config.token) ∧
    (∀ s, nc.source = some s → s ≠ "" →
      (updateConfig nc st).config.source = s) ∧
    (∀ now t env m, (updateConfig nc st).isFetching = false →
      (loadWithCache now t env (updateConfig nc st) m).fetched = true) := by
  refine ⟨rfl, rfl, rfl, rfl, ?_, ?_, ?_, ?_, ?_, ?_, ?_, ?_⟩
  · intro h
    simp [updateConfig, applyS, h]
  · intro s h hs
    simp [updateConfig, applyS, h, hs]
  · intro h
    simp [updateConfig, applyTTL, h]
  · intro n h hn
    simp [updateConfig, applyTTL, h, hn]
  · intro h
    simp [updateConfig, applyOS, h]
  · intro h
    simp [updateConfig, applyOS, h]
  · intro s h hs
    simp [updateConfig, applyS, h, hs]
  · intro now t env m hflag
    exact loadWithCache_miss_fetches now t env (updateConfig nc st) m
      (by cases t <;> rfl) hflag

/-- A reconfiguration providing a repository, a 60-second TTL and the
local source mode. -/
def ncSrc : NewConfig :=
  ⟨some ("owner/other"), none, none, none, some 60, some ("local")⟩

/-- Witness for C7 (amended): the non-zero TTL is applied in milliseconds
and the provided source mode is applied. -/
theorem c7_update_config_witness :
    (updateConfig ncSrc stHit).config.cacheTTL = 60 * 1000 ∧
    (updateConfig ncSrc stHit).config.source = "local" :=
  ⟨(c7_update_config ncSrc stHit).2.2.2.2.2.2.2.1 60 rfl (by decide),
    (c7_update_config ncSrc stHit).2.2.2.2.2.2.2.2.2.2.1 "local" rfl (by decide)⟩

/-- C10: when a successful remote fetch yields two items sharing one id
(under distinct remote file names), the in-memory result contains both, in
fetch order, but both mirror writes target the same path `<id>.json`, so
only the last item's content persists on disk, and a later mirror-fallback
read of that directory returns a single item per id — here exactly the
last-written one. -/
theorem c10_duplicate_ids (x y : Item) (nx ny : String) (hid : x.id = y.id)
    (hne : nx ≠ ny) (hx : endsWithJson nx = true) (hy : endsWithJson ny = true) :
    loadFromGitHub
      ⟨some [⟨nx, "file"⟩, ⟨ny, "file"⟩],
        fun n => if n = nx then some x else if n = ny then some y else none,
        false, fun _ => false, []⟩ (some []) =
      ([x, y], some [⟨y.id ++ ".json", some y⟩]) ∧
    loadFromCacheDir (some [⟨y.id ++ ".json", some y⟩]) = some [y] := by
  have hname : x.id ++ ".json" = y.id ++ ".json" := by rw [hid]
  constructor
  · have hitems : fetchListedItems
        (fun n => if n = nx then some x else if n = ny then some y else none)
        [⟨nx, "file"⟩, ⟨ny, "file"⟩] = [x, y] := by
      simp [fetchListedItems, hx, hy, Ne.symm hne]
    show (fetchListedItems _ _,
      saveToCacheDir false (fun _ => false) (some []) (fetchListedItems _ _)) = _
    rw [hitems]
    refine Prod.ext rfl ?_
    show saveToCacheDir false (fun _ => false) (some []) [x, y] = _
    simp [saveToCacheDir, saveItems, writeMirrorFile, hname]
  · have hj : endsWithJson (y.id ++ ".json") = true := endsWithJson_append y.id
    simp [loadFromCacheDir, readDirFiles, hj]

/-- Witness for C10 at concrete items sharing the id `d`. -/
theorem c10_duplicate_ids_witness :
    loadFromGitHub
      ⟨some [⟨"f1.json", "file"⟩, ⟨"f2.json", "file"⟩],
        fun n => if n = "f1.json" then some itemD1
          else if n = "f2.json" then some itemD2 else none,
        false, fun _ => false, []⟩ (some []) =
      ([itemD1, itemD2], some [⟨itemD2.id ++ ".json", some itemD2⟩]) ∧
    loadFromCacheDir (some [⟨itemD2.id ++ ".json", some itemD2⟩]) =
      some [itemD2] :=
  c10_duplicate_ids itemD1 itemD2 ("f1.json") ("f2.json") rfl (by decide)
    (by decide) (by decide)
